import Mathlib

/-!
Verification of the SMStudio-Run-On-Start Lambda
(src/SMStudio-Run-On-Start/lambda/main.py) against its specification.

The Python program is shallowly embedded: external collaborators (the
SageMaker control plane, the Jupyter HTTP server, the websocket channel)
are modelled as explicit inputs — a list of domains returned by
`list_domains`, a list of plain-text status responses for the readiness
poll, a cookie jar, and a list of inbound websocket messages.  Raised
Python exceptions become `Except`-style error values; side effects on the
outside world (control-plane calls, sends, receives, channel close) are
recorded in explicit event traces.
-/

/-- Errors raised by the Python code.  `valueError` models
`raise ValueError(msg)`; `keyError` models a raw dict / cookie-jar
subscript failure (`KeyError`); `indexError` models an out-of-range list
subscript (`IndexError`). -/
inductive RunErr
  | valueError (msg : String)
  | keyError (key : String)
  | indexError
deriving DecidableEq

/-- A SageMaker Studio domain record as returned by
`smclient.list_domains()["Domains"]`; only the "DomainId" field is read
by the program. -/
structure Domain where
  DomainId : String
deriving DecidableEq

/-- Control-plane calls observable during tenant resolution.  The only
control-plane operation `get_domain_id` can issue is
`smclient.list_domains()`. -/
inductive CPCall
  | listDomains
deriving DecidableEq

/-- Python truthiness of `os.environ.get(...)`: `None` and the empty
string are falsy, any other string is truthy (main.py line 29,
`if ENV_DOMAIN_ID:`). -/
def envTruthy : Option String → Bool
  | some s => s ≠ ""
  | none => false

/-- main.py lines 32-41: the branch of `get_domain_id` taken when
`ENV_DOMAIN_ID` is falsy.  `domains` is the list returned by the
control-plane call `smclient.list_domains()["Domains"]`, so the call
trace is `[CPCall.listDomains]`.  Note the source's guard
`len(domains) < 0` (line 34) compares against 0 with `<`, which is never
true for a Python length, so the "No SageMaker Studio domains" error is
unreachable and an empty list instead hits `domains[0]` (line 41) and
raises IndexError. -/
def list_domains_branch (domains : List Domain) : Except RunErr String × List CPCall :=
  ( if domains.length < 0 then
      Except.error (RunErr.valueError "No SageMaker Studio domains in this region!")
    else if domains.length > 1 then
      Except.error (RunErr.valueError
        ("Cannot automatically select SageMaker Studio domain: multiple ("
          ++ toString domains.length ++ ") were found"))
    else
      match domains with
      | d :: _ => Except.ok d.DomainId
      | [] => Except.error RunErr.indexError,
    [CPCall.listDomains] )

/-- main.py lines 28-41, `get_domain_id()`.  `env` is
`os.environ.get("SAGEMAKER_DOMAIN_ID")`.  Returns the resolved domain id
(or raised error) together with the list of control-plane calls issued. -/
def get_domain_id (env : Option String) (domains : List Domain) :
    Except RunErr String × List CPCall :=
  if envTruthy env then (Except.ok (env.getD ""), [])
  else list_domains_branch domains

/-- The invocation event of `lambda_handler` (main.py line 44), restricted
to the keys read during tenant resolution.  `none` models an absent key. -/
structure LambdaEvent where
  DomainId : Option String
  domainId : Option String
deriving DecidableEq

/-- main.py line 46: `event.get("DomainId", event.get("domainId"))` —
the "DomainId" key is preferred, falling back to "domainId". -/
def eventDomainId (e : LambdaEvent) : Option String :=
  match e.DomainId with
  | some d => some d
  | none => e.domainId

/-- main.py lines 46-48: the tenant-resolution prefix of
`lambda_handler`. If the event supplies a domain id it is used as-is and
`get_domain_id` (and hence the control plane) is never invoked. -/
def resolveDomainId (e : LambdaEvent) (env : Option String) (domains : List Domain) :
    Except RunErr String × List CPCall :=
  match eventDomainId e with
  | some d => (Except.ok d, [])
  | none => get_domain_id env domains

/-- Observable events of the readiness wait (main.py lines 77-91).
`sleepPoll s` is one `time.sleep(2)` followed by one GET of the
`/app?appType=JupyterServer&appName=default` status endpoint whose
plain-text response was `s`; `primingGet` is the final
`reqsess.get(api_base_url)` issued once the app is InService. -/
inductive AwaitEv
  | sleepPoll (status : String)
  | primingGet
deriving DecidableEq

/-- main.py lines 82-85: `while app_status not in {"InService", "Terminated"}:
time.sleep(2); app_status = reqsess.get(...).text`.  `responses` scripts
the successive plain-text responses of the status endpoint.  Returns the
poll trace, the final status, and the unconsumed responses; `none` means
the scripted responses ran out while the real loop would keep polling
forever. -/
def pollLoop (app_status : String) (responses : List String) :
    Option (List AwaitEv × String × List String) :=
  if app_status = "InService" ∨ app_status = "Terminated" then
    some ([], app_status, responses)
  else
    match responses with
    | [] => none
    | r :: rs =>
      match pollLoop r rs with
      | some (t, fin, rem) => some (AwaitEv.sleepPoll r :: t, fin, rem)
      | none => none

/-- main.py lines 79-91: the readiness wait.  Starts from the internal
status "Unknown", polls until a terminal status, then on "InService"
issues one priming GET to the base API URL and returns normally, and
otherwise raises the ValueError about the unusable status (the
UnavailableError of the spec's taxonomy). -/
def await_ready (responses : List String) :
    Option (List AwaitEv × Except RunErr Unit × List String) :=
  match pollLoop "Unknown" responses with
  | none => none
  | some (t, fin, rem) =>
    if fin = "InService" then some (t ++ [AwaitEv.primingGet], Except.ok (), rem)
    else some (t, Except.error (RunErr.valueError
      ("JupyterServer app in unusable status '" ++ fin ++ "'")), rem)

/-- The event trace of a readiness wait (empty when the scripted
responses are exhausted). -/
def awaitTrace (responses : List String) : List AwaitEv :=
  match await_ready responses with
  | some (t, _, _) => t
  | none => []

/-- Number of sleep-then-poll cycles in a readiness-wait trace. -/
def countSleepPolls (t : List AwaitEv) : Nat :=
  t.countP (fun e => match e with | AwaitEv.sleepPoll _ => true | _ => false)

/-- Number of priming GETs in a readiness-wait trace. -/
def countPriming (t : List AwaitEv) : Nat :=
  t.countP (fun e => match e with | AwaitEv.primingGet => true | _ => false)

/-- Character class `[\d\.]` of PROMPT_REGEX (main.py line 26): a decimal
digit or a literal dot. -/
def promptCharOk (c : Char) : Bool :=
  c.isDigit || c = '.'

/-- Python line-end for the anchor `$` in `re.MULTILINE` mode: end of the
string, or immediately before a newline. -/
def lineEnd : List Char → Bool
  | [] => true
  | c :: _ => c = '\n'

/-- After `bash-` and at least one `[\d\.]` character: consume further
`[\d\.]` characters, then require the literal `$`, a space, and a line
end.  Deterministic because `$` is not in the character class. -/
def promptRest : List Char → Bool
  | [] => false
  | c :: rest =>
    if promptCharOk c then promptRest rest
    else c = '$' && (match rest with
      | ' ' :: rest2 => lineEnd rest2
      | _ => false)

/-- Matches `bash-[\d\.]+\$ $` (multiline) starting at the head of the
character list: the literal `bash-`, one or more digit-or-dot characters,
`$`, a space, and a line end. -/
def promptHere : List Char → Bool
  | 'b' :: 'a' :: 's' :: 'h' :: '-' :: c :: rest =>
    promptCharOk c && promptRest rest
  | _ => false

/-- `re.compile(PROMPT_REGEX, re.MULTILINE).search`: the pattern matches
starting at some position of the character list. -/
def promptSearch : List Char → Bool
  | [] => promptHere []
  | c :: rest => promptHere (c :: rest) || promptSearch rest

/-- Prompt search over a Lean string (main.py line 130,
`prompt_exp.search(res[1])`). -/
def promptSearchStr (s : String) : Bool :=
  promptSearch s.data

/-- A parsed inbound or outbound websocket message
`[stream_name, payload]` (main.py lines 115-130: `res[0]`, `res[1]`). -/
abbrev Msg := String × String

/-- Errors of the websocket command loop: `channelClosed` models
`ws.recv()` raising because the channel failed or closed unexpectedly;
`malformedMessage` models `json.loads` / message indexing raising on a
frame that is not a 2-element array. -/
inductive DrvErr
  | channelClosed
  | malformedMessage
deriving DecidableEq

/-- Observable websocket events of the Command Driver: each received and
logged message, each `ws.send`, and `ws.close()`. -/
inductive WsEvent
  | recv (m : Msg)
  | send (m : Msg)
  | close
deriving DecidableEq

/-- main.py lines 125-131: the inner `while True` loop after a command is
sent.  `inbound` scripts the remaining inbound frames; `none` is a frame
that fails to parse.  Each parsed message is logged (a `recv` event); the
loop breaks exactly when `res[0] == "stdout"` and the prompt pattern is
found in `res[1]`.  Returns the events and either the unconsumed inbound
frames or the raised error. -/
def awaitPrompt : List (Option Msg) → List WsEvent × Except DrvErr (List (Option Msg))
  | [] => ([], Except.error DrvErr.channelClosed)
  | none :: _ => ([], Except.error DrvErr.malformedMessage)
  | some m :: rest =>
    if m.1 = "stdout" && promptSearchStr m.2 then
      ([WsEvent.recv m], Except.ok rest)
    else
      (WsEvent.recv m :: (awaitPrompt rest).1, (awaitPrompt rest).2)

/-- main.py lines 121-131: the `for ix, c in enumerate(COMMAND_SCRIPT)`
loop.  Each command is sent as `["stdin", c + "\n"]`, then the inner loop
waits for the prompt; an error aborts the remaining commands. -/
def driveCommands : List String → List (Option Msg) →
    List WsEvent × Except DrvErr (List (Option Msg))
  | [], inbound => ([], Except.ok inbound)
  | c :: cs, inbound =>
    match (awaitPrompt inbound).2 with
    | Except.ok rest =>
      (WsEvent.send ("stdin", c ++ "\n") ::
        ((awaitPrompt inbound).1 ++ (driveCommands cs rest).1),
       (driveCommands cs rest).2)
    | Except.error e =>
      (WsEvent.send ("stdin", c ++ "\n") :: (awaitPrompt inbound).1, Except.error e)

/-- main.py lines 111-135: the Command Driver from the point where the
duplex channel is open.  Lines 113-117 read `setup = None` followed by
`while setup is not None: ...`; the guard is false at entry, so the body
never runs and no inbound frame is consumed before the first command is
sent.  The `try ... finally: ws.close()` appends exactly one close event
on every exit path, success or error. -/
def run_ws_session (script : List String) (inbound : List (Option Msg)) :
    List WsEvent × Except DrvErr Unit :=
  ((driveCommands script inbound).1 ++ [WsEvent.close],
   match (driveCommands script inbound).2 with
   | Except.ok _ => Except.ok ()
   | Except.error e => Except.error e)

/-- Number of channel-close events in a driver trace. -/
def countClose (t : List WsEvent) : Nat :=
  t.countP (fun e => match e with | WsEvent.close => true | _ => false)

/-- Cookie-jar subscript `reqsess.cookies[k]` (main.py line 97): returns
the value, or raises KeyError when the cookie is absent. -/
def cookie_subscript (jar : List (String × String)) (k : String) : Except RunErr String :=
  match jar.lookup k with
  | some v => Except.ok v
  | none => Except.error (RunErr.keyError k)

/-- main.py lines 77-98: the run from just after the login GET up to the
anti-CSRF token lookup of terminal creation.  `jarLogin` is the cookie
jar after login; if "_xsrf" is absent the readiness wait runs (its GETs
may rewrite the jar, modelled by `jarAfterWait`).  Both paths then reach
`reqsess.cookies["_xsrf"]` unconditionally.  `none` means the readiness
wait never terminated within the scripted responses. -/
def post_login (jarLogin : List (String × String)) (responses : List String)
    (jarAfterWait : List (String × String)) : Option (Except RunErr String) :=
  if (jarLogin.lookup "_xsrf").isSome then
    some (cookie_subscript jarLogin "_xsrf")
  else
    match await_ready responses with
    | none => none
    | some (_, Except.error e, _) => some (Except.error e)
    | some (_, Except.ok (), _) => some (cookie_subscript jarAfterWait "_xsrf")

/-- Claim C1 (code evaluation): with no environment default and an empty
control-plane tenant list, `get_domain_id` raises IndexError at
`domains[0]` — not the intended ValueError — because the zero-tenant
guard `len(domains) < 0` is never true. -/
theorem C1_zero_domains_indexerror :
    get_domain_id none [] = (Except.error RunErr.indexError, [CPCall.listDomains]) := by
  rfl

/-- Claim C6: with no explicit identifier (falsy environment default), a
tenant list of length exactly one resolves to that tenant's DomainId, and
a list of length greater than one fails with the ValueError about being
unable to automatically select among multiple domains (the
ConfigurationError of the spec's taxonomy). -/
theorem C6_single_and_multiple (env : Option String) (domains : List Domain)
    (h : envTruthy env = false) :
    (∀ d : Domain, domains = [d] →
        get_domain_id env domains = (Except.ok d.DomainId, [CPCall.listDomains]))
    ∧ (1 < domains.length →
        get_domain_id env domains =
          (Except.error (RunErr.valueError
            ("Cannot automatically select SageMaker Studio domain: multiple ("
              ++ toString domains.length ++ ") were found")), [CPCall.listDomains])) := by
  constructor
  · intro d hd
    subst hd
    simp [get_domain_id, h, list_domains_branch]
  · intro hlen
    have h1 : ¬ domains.length < 0 := Nat.not_lt_zero _
    simp [get_domain_id, h, list_domains_branch, h1, hlen]

/-- Witness for C6 at concrete inputs: env unset; a single domain list
returns its id, a two-domain list fails with the "multiple" ValueError. -/
theorem C6_witness :
    envTruthy none = false
    ∧ get_domain_id none [⟨"d-one"⟩] = (Except.ok "d-one", [CPCall.listDomains])
    ∧ get_domain_id none [⟨"d-a"⟩, ⟨"d-b"⟩] =
        (Except.error (RunErr.valueError
          "Cannot automatically select SageMaker Studio domain: multiple (2) were found"),
         [CPCall.listDomains]) := by
  refine ⟨rfl, ?_, ?_⟩
  · exact (C6_single_and_multiple none [⟨"d-one"⟩] rfl).1 ⟨"d-one"⟩ rfl
  · exact (C6_single_and_multiple none [⟨"d-a"⟩, ⟨"d-b"⟩] rfl).2 (by decide)

/-- Claim C8: an explicitly supplied tenant identifier — whether from the
invocation event or from a truthy environment default — is returned
unchanged, and the control-plane tenant-listing call is never issued
(the call trace is empty), regardless of the control-plane state. -/
theorem C8_explicit_id_no_call :
    (∀ (e : LambdaEvent) (env : Option String) (domains : List Domain) (d : String),
        eventDomainId e = some d →
        resolveDomainId e env domains = (Except.ok d, []))
    ∧ (∀ (s : String) (domains : List Domain), s ≠ "" →
        get_domain_id (some s) domains = (Except.ok s, [])) := by
  constructor
  · intro e env domains d hd
    simp [resolveDomainId, hd]
  · intro s domains hs
    simp [get_domain_id, envTruthy, hs]

/-- Witness for C8 at concrete inputs: an event-supplied id and an
environment-supplied id are both returned unchanged with no
control-plane call, even though the control plane holds two domains. -/
theorem C8_witness :
    resolveDomainId ⟨some "d-explicit", none⟩ (some "d-env") [⟨"d-a"⟩, ⟨"d-b"⟩] =
      (Except.ok "d-explicit", [])
    ∧ get_domain_id (some "d-env") [⟨"d-a"⟩, ⟨"d-b"⟩] = (Except.ok "d-env", []) := by
  constructor
  · exact C8_explicit_id_no_call.1 ⟨some "d-explicit", none⟩ (some "d-env")
      [⟨"d-a"⟩, ⟨"d-b"⟩] "d-explicit" rfl
  · exact C8_explicit_id_no_call.2 "d-env" [⟨"d-a"⟩, ⟨"d-b"⟩] (by decide)

/-- Claim C9: fixed tenant-identifier precedence.  (1) An event key
"DomainId" wins over everything; (2) otherwise "domainId" wins;
(3) otherwise a truthy (non-empty) environment default is used;
(4) only when all are absent is the control plane queried, auto-resolving
the sole tenant. -/
theorem C9_precedence :
    (∀ (e : LambdaEvent) (env : Option String) (domains : List Domain) (d : String),
        e.DomainId = some d →
        resolveDomainId e env domains = (Except.ok d, []))
    ∧ (∀ (e : LambdaEvent) (env : Option String) (domains : List Domain) (d : String),
        e.DomainId = none → e.domainId = some d →
        resolveDomainId e env domains = (Except.ok d, []))
    ∧ (∀ (e : LambdaEvent) (s : String) (domains : List Domain),
        eventDomainId e = none → s ≠ "" →
        resolveDomainId e (some s) domains = (Except.ok s, []))
    ∧ (∀ (e : LambdaEvent) (env : Option String) (d : Domain),
        eventDomainId e = none → envTruthy env = false →
        resolveDomainId e env [d] = (Except.ok d.DomainId, [CPCall.listDomains])) := by
  refine ⟨?_, ?_, ?_, ?_⟩
  · intro e env domains d hd
    simp [resolveDomainId, eventDomainId, hd]
  · intro e env domains d h1 h2
    simp [resolveDomainId, eventDomainId, h1, h2]
  · intro e s domains h1 hs
    simp [resolveDomainId, h1, get_domain_id, envTruthy, hs]
  · intro e env d h1 h2
    simp [resolveDomainId, h1, get_domain_id, h2, list_domains_branch]

/-- Unfolding lemma: a terminal status ends the poll loop at once, with
no further responses consumed. -/
theorem pollLoop_terminal (s : String) (responses : List String)
    (h : s = "InService" ∨ s = "Terminated") :
    pollLoop s responses = some ([], s, responses) := by
  rw [pollLoop.eq_def, if_pos h]

/-- Unfolding lemma: a non-terminal status sleeps, consumes the next
scripted response, and continues. -/
theorem pollLoop_step (s r : String) (rs : List String)
    (h : ¬ (s = "InService" ∨ s = "Terminated")) :
    pollLoop s (r :: rs) =
      match pollLoop r rs with
      | some (t, fin, rem) => some (AwaitEv.sleepPoll r :: t, fin, rem)
      | none => none := by
  rw [pollLoop.eq_def, if_neg h]

/-- After any prefix of non-terminal statuses, the poll loop stops at the
first "Terminated" response, leaving the rest of the scripted responses
unconsumed. -/
theorem pollLoop_reaches_terminated (post : List String) :
    ∀ (l : List String) (s : String),
    ¬ (s = "InService" ∨ s = "Terminated") →
    (∀ x ∈ l, x ≠ "InService" ∧ x ≠ "Terminated") →
    pollLoop s (l ++ "Terminated" :: post) =
      some (l.map AwaitEv.sleepPoll ++ [AwaitEv.sleepPoll "Terminated"],
            "Terminated", post) := by
  intro l
  induction l with
  | nil =>
    intro s hs _
    rw [List.nil_append, pollLoop_step s "Terminated" post hs,
      pollLoop_terminal "Terminated" post (Or.inr rfl)]
    simp
  | cons a as ih =>
    intro s hs hall
    have ha := hall a (List.mem_cons_self a as)
    have ha' : ¬ (a = "InService" ∨ a = "Terminated") := by
      intro hc
      cases hc with
      | inl h1 => exact ha.1 h1
      | inr h2 => exact ha.2 h2
    have has : ∀ x ∈ as, x ≠ "InService" ∧ x ≠ "Terminated" := by
      intro x hx
      exact hall x (List.mem_cons_of_mem a hx)
    rw [List.cons_append, pollLoop_step s a (as ++ "Terminated" :: post) hs,
      ih a ha' has]
    simp

/-- Claim C3 counterexample: on the status sequence
["Pending", "Pending", "InService"] the readiness wait does NOT perform
exactly 2 sleep-then-poll cycles (it performs 3: each scripted response,
the final "InService" included, is consumed by a sleep-then-poll). -/
theorem C3_counterexample :
    ¬ countSleepPolls (awaitTrace ["Pending", "Pending", "InService"]) = 2 := by
  decide

/-- Claim C3 (amended): on the status sequence
["Pending", "Pending", "InService"], starting from internal status
"Unknown", the readiness wait performs exactly 3 sleep-then-poll cycles,
then exactly one priming GET to the base API URL, and returns normally. -/
theorem C3_three_cycles_then_priming :
    await_ready ["Pending", "Pending", "InService"] =
      some ([AwaitEv.sleepPoll "Pending", AwaitEv.sleepPoll "Pending",
             AwaitEv.sleepPoll "InService", AwaitEv.primingGet], Except.ok (), [])
    ∧ countSleepPolls (awaitTrace ["Pending", "Pending", "InService"]) = 3
    ∧ countPriming (awaitTrace ["Pending", "Pending", "InService"]) = 1 := by
  refine ⟨rfl, ?_, ?_⟩ <;> decide

/-- Claim C7: as soon as a poll returns "Terminated", the readiness wait
raises the "unusable status" ValueError (the UnavailableError of the
spec), its trace consists only of the polls so far — in particular no
priming GET — and the remaining scripted responses are left unconsumed
(no further status polls are issued). -/
theorem C7_terminated_stops (pre post : List String)
    (h : ∀ s ∈ pre, s ≠ "InService" ∧ s ≠ "Terminated") :
    await_ready (pre ++ "Terminated" :: post) =
      some (pre.map AwaitEv.sleepPoll ++ [AwaitEv.sleepPoll "Terminated"],
            Except.error (RunErr.valueError
              "JupyterServer app in unusable status 'Terminated'"),
            post) := by
  have hu : ¬ ("Unknown" = "InService" ∨ "Unknown" = "Terminated") := by decide
  rw [await_ready, pollLoop_reaches_terminated post pre "Unknown" hu h]
  simp

/-- Witness for C7 at a concrete input: one pending poll, then
"Terminated"; a further scripted response stays unconsumed and the trace
holds no priming GET. -/
theorem C7_witness :
    (∀ s ∈ ["Pending"], s ≠ "InService" ∧ s ≠ "Terminated")
    ∧ await_ready ["Pending", "Terminated", "Unreached"] =
        some ([AwaitEv.sleepPoll "Pending", AwaitEv.sleepPoll "Terminated"],
              Except.error (RunErr.valueError
                "JupyterServer app in unusable status 'Terminated'"),
              ["Unreached"]) := by
  refine ⟨by decide, ?_⟩
  exact C7_terminated_stops ["Pending"] ["Unreached"] (by decide)

/-- Witness for C9 at concrete inputs, one per precedence case. -/
theorem C9_witness :
    resolveDomainId ⟨some "d-upper", some "d-lower"⟩ (some "d-env") [⟨"d-cp"⟩] =
      (Except.ok "d-upper", [])
    ∧ resolveDomainId ⟨none, some "d-lower"⟩ (some "d-env") [⟨"d-cp"⟩] =
      (Except.ok "d-lower", [])
    ∧ resolveDomainId ⟨none, none⟩ (some "d-env") [⟨"d-cp"⟩] =
      (Except.ok "d-env", [])
    ∧ resolveDomainId ⟨none, none⟩ none [⟨"d-cp"⟩] =
      (Except.ok "d-cp", [CPCall.listDomains]) := by
  refine ⟨?_, ?_, ?_, ?_⟩
  · exact C9_precedence.1 ⟨some "d-upper", some "d-lower"⟩ (some "d-env") [⟨"d-cp"⟩]
      "d-upper" rfl
  · exact C9_precedence.2.1 ⟨none, some "d-lower"⟩ (some "d-env") [⟨"d-cp"⟩]
      "d-lower" rfl rfl
  · exact C9_precedence.2.2.1 ⟨none, none⟩ "d-env" [⟨"d-cp"⟩] rfl (by decide)
  · exact C9_precedence.2.2.2 ⟨none, none⟩ none ⟨"d-cp"⟩ rfl rfl

/-- Claim C2 (code evaluation): with an inbound stream containing no
"setup" message at all, the driver does not wait: its very first channel
action is the "stdin" send of the first command, before any inbound
message has been received — because `setup = None` followed by
`while setup is not None:` skips the wait entirely. -/
theorem C2_stdin_sent_before_setup :
    run_ws_session ["echo hi"] [some ("stdout", "bash-5.1$ ")] =
      ([WsEvent.send ("stdin", "echo hi\n"), WsEvent.recv ("stdout", "bash-5.1$ "),
        WsEvent.close], Except.ok ()) := by
  rfl

/-- Claim C4: the compiled prompt pattern, searched in multiline mode,
matches "bash-5.1.16$ " and "bash-4.2$ " — also as an interior line of a
payload with embedded newlines — and does not match
"bash-5.1$ computing"; and the driver's prompt loop advances only on a
message with stream_name "stdout" whose payload matches: a matching
"stderr" payload and a non-matching "stdout" payload are both consumed
without advancing. -/
theorem C4_prompt_pattern_and_advance :
    promptSearchStr "bash-5.1.16$ " = true
    ∧ promptSearchStr "bash-4.2$ " = true
    ∧ promptSearchStr "echo done\nbash-5.1.16$ \nextra" = true
    ∧ promptSearchStr "abc\nbash-4.2$ " = true
    ∧ promptSearchStr "bash-5.1$ computing" = false
    ∧ awaitPrompt [some ("stderr", "bash-5.1$ "), some ("stdout", "partial out"),
        some ("stdout", "bash-5.1$ ")] =
        ([WsEvent.recv ("stderr", "bash-5.1$ "), WsEvent.recv ("stdout", "partial out"),
          WsEvent.recv ("stdout", "bash-5.1$ ")], Except.ok []) := by
  refine ⟨by decide, by decide, by decide, by decide, by decide, rfl⟩

/-- The prompt-wait loop never closes the channel. -/
theorem awaitPrompt_countClose (inbound : List (Option Msg)) :
    countClose (awaitPrompt inbound).1 = 0 := by
  induction inbound with
  | nil => rfl
  | cons h rest ih =>
    cases h with
    | none => rfl
    | some m =>
      by_cases hc : (m.1 = "stdout" && promptSearchStr m.2) = true
      · simp [awaitPrompt, hc, countClose]
      · simp only [awaitPrompt, hc, if_false, Bool.false_eq_true]
        simp only [countClose, List.countP_cons] at ih ⊢
        simp [ih]

/-- The command loop never closes the channel. -/
theorem driveCommands_countClose (script : List String) :
    ∀ inbound : List (Option Msg), countClose (driveCommands script inbound).1 = 0 := by
  induction script with
  | nil => intro inbound; rfl
  | cons c cs ih =>
    intro inbound
    have h1 := awaitPrompt_countClose inbound
    simp only [countClose] at h1
    cases hr : (awaitPrompt inbound).2 with
    | ok rest =>
      have h2 := ih rest
      simp only [countClose] at h2
      simp only [driveCommands, hr, countClose]
      rw [List.countP_cons, List.countP_append, h1, h2]
      rfl
    | error e =>
      simp only [driveCommands, hr, countClose]
      rw [List.countP_cons, h1]
      rfl

/-- Claim C5: for every script and every scripted inbound stream — whether
the driver completes the whole script normally or aborts on a raised
error (channel closed, malformed message) — the channel's close operation
appears exactly once in the trace, by the `try/finally`. -/
theorem C5_close_exactly_once (script : List String) (inbound : List (Option Msg)) :
    countClose (run_ws_session script inbound).1 = 1 := by
  simp only [run_ws_session, countClose, List.countP_append] at *
  have h := driveCommands_countClose script inbound
  simp only [countClose] at h
  simp [h]

/-- Claim C10: if login leaves the cookie jar without "_xsrf" (so the
readiness wait runs), the wait completes normally, and the jar still has
no "_xsrf" afterwards, then the run fails at terminal creation with the
raw KeyError from `reqsess.cookies["_xsrf"]`, not a descriptive error. -/
theorem C10_missing_xsrf_keyerror (jarLogin jarAfterWait : List (String × String))
    (responses : List String) (t : List AwaitEv) (rem : List String)
    (h1 : jarLogin.lookup "_xsrf" = none)
    (h2 : jarAfterWait.lookup "_xsrf" = none)
    (h3 : await_ready responses = some (t, Except.ok (), rem)) :
    post_login jarLogin responses jarAfterWait =
      some (Except.error (RunErr.keyError "_xsrf")) := by
  simp [post_login, h1, h3, cookie_subscript, h2]

/-- Witness for C10 at a concrete input: empty login jar, a single
"InService" status response, and a post-wait jar holding only an
unrelated cookie. -/
theorem C10_witness :
    ([] : List (String × String)).lookup "_xsrf" = none
    ∧ [("studio_session", "v")].lookup "_xsrf" = none
    ∧ await_ready ["InService"] =
        some ([AwaitEv.sleepPoll "InService", AwaitEv.primingGet], Except.ok (), [])
    ∧ post_login [] ["InService"] [("studio_session", "v")] =
        some (Except.error (RunErr.keyError "_xsrf")) := by
  refine ⟨rfl, by decide, rfl, ?_⟩
  exact C10_missing_xsrf_keyerror [] [("studio_session", "v")] ["InService"]
    [AwaitEv.sleepPoll "InService", AwaitEv.primingGet] [] rfl (by decide) rfl
